import Mathlib

/-!
Verification of the pg-schema-diff planner's per-kind SQL vertex generators
(views, functions, event triggers): a shallow embedding of
`pkg/diff/function_sql_vertex_generator.go`,
`pkg/diff/event_trigger_sql_vertex_generator.go` and the view generator,
with the shared schema-model and plan-graph helpers modelled from the
specification (§3.1, §3.4, §6.3) where only their callers are in view.
-/

namespace PgSchemaDiff

/-- Modelled from the spec: a qualified name pairs a schema name with a
pre-escaped object name (§3.1); only callers of `schema.SchemaQualifiedName`
are in the repository's files. -/
structure SchemaQualifiedName where
  SchemaName : String
  EscapedName : String
  deriving DecidableEq, Repr

/-- Modelled from the spec: identifiers always appear double-quoted (§6.3);
matches the expected strings of the repository's tests
(`schema.EscapeIdentifier`). -/
def EscapeIdentifier (s : String) : String := "\"" ++ s ++ "\""

/-- Modelled from the spec: equality and map-key identity use the
fully-qualified escaped form `"schema"."object"` (§3.1); the object part is
carried pre-escaped. -/
def SchemaQualifiedName.GetFQEscapedName (n : SchemaQualifiedName) : String :=
  EscapeIdentifier n.SchemaName ++ "." ++ n.EscapedName

/-- Modelled from the spec: a table column (name, type, nullability,
default) (§3.2). -/
structure Column where
  Name : String
  ColumnType : String
  IsNullable : Bool
  Default : String
  deriving DecidableEq, Repr

/-- Modelled from the spec: `schema.Table` — name, ordered column list,
constraints (§3.2). The Go struct embeds `SchemaQualifiedName`; here it is
the field `name`. -/
structure Table where
  name : SchemaQualifiedName
  Columns : List Column
  Constraints : List String
  deriving DecidableEq, Repr

def Table.GetName (t : Table) : String := t.name.EscapedName

def Table.GetFQEscapedName (t : Table) : String := t.name.GetFQEscapedName

/-- The Go zero value `schema.Table{}` that `cmp.Equal` compares against. -/
def Table.zero : Table := ⟨⟨"", ""⟩, [], []⟩

/-- A best-effort (table, column) pair extracted from a function body
(`schema.TableColumnRef`, §3.2). -/
structure TableColumnRef where
  TableName : String
  ColumnName : String
  deriving DecidableEq, Repr

/-- Modelled from the spec: `schema.Function` — name, full `CREATE` text,
language tag, declared dependencies (§3.2). The Go struct embeds
`SchemaQualifiedName`; here it is the field `name`. -/
structure Function where
  name : SchemaQualifiedName
  FunctionDef : String
  Language : String
  DependsOnFunctions : List SchemaQualifiedName
  DependsOnTables : List SchemaQualifiedName
  ReferencedColumns : List TableColumnRef
  deriving DecidableEq, Repr

def Function.GetFQEscapedName (f : Function) : String := f.name.GetFQEscapedName

/-- The Go zero value `schema.Function{}` that `cmp.Equal` compares against. -/
def Function.zero : Function := ⟨⟨"", ""⟩, "", "", [], [], []⟩

/-- Modelled from the spec: `schema.View` — name, definition text, dependency
lists (§3.2). The Go struct embeds `SchemaQualifiedName`; here it is the
field `name`. -/
structure View where
  name : SchemaQualifiedName
  Definition : String
  DependsOnTables : List SchemaQualifiedName
  DependsOnViews : List SchemaQualifiedName
  deriving DecidableEq, Repr

def View.GetFQEscapedName (v : View) : String := v.name.GetFQEscapedName

/-- The Go zero value `schema.View{}` that `cmp.Equal` compares against. -/
def View.zero : View := ⟨⟨"", ""⟩, "", [], []⟩

/-- `schema.EventTrigger` (§3.2): unqualified name, event, tag list, enabled
flag, trigger function's qualified name. -/
structure EventTrigger where
  Name : String
  Event : String
  Function : SchemaQualifiedName
  Enabled : String
  Tags : List String
  deriving DecidableEq, Repr

/-- The hazard kinds surfaced by this core (§6.4). -/
inductive MigrationHazardType where
  | DeletesData
  | HasUntrackableDependencies
  deriving DecidableEq, Repr

/-- A hazard: kind plus human-readable message (§4.5). -/
structure MigrationHazard where
  hazardType : MigrationHazardType
  Message : String
  deriving DecidableEq, Repr

/-- Modelled from the spec: statement timeout metadata; its value does not
affect planner behaviour (§5). -/
def statementTimeoutDefault : Nat := 3000

/-- Modelled from the spec: lock-timeout metadata; its value does not affect
planner behaviour (§5). -/
def lockTimeoutDefault : Nat := 3000

/-- A plan statement: DDL text, timeouts, hazards (§3.4). -/
structure Statement where
  DDL : String
  Timeout : Nat
  LockTimeout : Nat
  Hazards : List MigrationHazard
  deriving DecidableEq, Repr

/-- The diff kind of a plan vertex: Add and Alter share a vertex (§3.4). -/
inductive diffType where
  | addAlter
  | delete
  deriving DecidableEq, Repr

/-- Modelled from the spec: a vertex id is `(kind_tag, fq_escaped_name,
diff_kind)` (§3.4). -/
structure sqlVertexId where
  objType : String
  objName : String
  diffKind : diffType
  deriving DecidableEq, Repr

def buildSchemaObjVertexId (objType objName : String) (d : diffType) : sqlVertexId :=
  ⟨objType, objName, d⟩

/-- Modelled from the spec: an edge `(from, to)` meaning `from` must run
strictly before `to` (§3.4). -/
structure dependency where
  src : sqlVertexId
  dst : sqlVertexId
  deriving DecidableEq, Repr

/-- The builder the generators use: `mustRun v` pins the vertex whose
placement the edge constrains. -/
structure mustRunBuilder where
  v : sqlVertexId
  deriving DecidableEq, Repr

def mustRun (v : sqlVertexId) : mustRunBuilder := ⟨v⟩

/-- `(mustRun x).after y`: x runs after y, so the edge is y → x. -/
def mustRunBuilder.after (b : mustRunBuilder) (w : sqlVertexId) : dependency := ⟨w, b.v⟩

/-- `(mustRun x).before y`: x runs before y, so the edge is x → y. -/
def mustRunBuilder.before (b : mustRunBuilder) (w : sqlVertexId) : dependency := ⟨b.v, w⟩

/-- `tableDiff` as the function generator consumes it: the old and new sides
of one table's diff. -/
structure tableDiff where
  old : Table
  new : Table
  deriving DecidableEq, Repr

/-- `functionDiff`: old and new sides of one function's diff. -/
structure functionDiff where
  old : Function
  new : Function
  deriving DecidableEq, Repr

/-- `viewDiff`: old and new sides of one view's diff. -/
structure viewDiff where
  old : View
  new : View
  deriving DecidableEq, Repr

/-- `eventTriggerDiff`: old and new sides of one event trigger's diff. -/
structure eventTriggerDiff where
  old : EventTrigger
  new : EventTrigger
  deriving DecidableEq, Repr

/-- The function generator's state
(`pkg/diff/function_sql_vertex_generator.go`): new-side functions by name and
the table diffs tracked this migration. -/
structure functionSQLVertexGenerator where
  functionsInNewSchemaByName : List (String × Function)
  tableDiffs : List tableDiff
  deriving DecidableEq, Repr

/-- `canFunctionDependenciesBeTracked` from
`pkg/diff/function_sql_vertex_generator.go`. -/
def canFunctionDependenciesBeTracked (function : Function) : Bool :=
  function.Language == "sql"

def functionAddHazardMessage : String :=
  "Dependencies, i.e. other functions used in the function body, of non-sql functions cannot be tracked. As a result, we cannot guarantee that function dependencies are ordered properly relative to this statement. For adds, this means you need to ensure that all functions this function depends on are created/altered before this statement."

def functionDeleteHazardMessage : String :=
  "Dependencies, i.e. other functions used in the function body, of non-sql functions cannot be tracked. As a result, we cannot guarantee that function dependencies are ordered properly relative to this statement. For drops, this means you need to ensure that all functions this function depends on are dropped after this statement."

/-- `functionSQLVertexGenerator.Add`: the stored definition text verbatim,
with an untrackable-dependencies hazard for non-sql languages. The second
component is the Go error return (`nil` = `none`). -/
def functionSQLVertexGenerator.Add (function : Function) :
    List Statement × Option String :=
  let hazards : List MigrationHazard :=
    if canFunctionDependenciesBeTracked function then []
    else [⟨MigrationHazardType.HasUntrackableDependencies, functionAddHazardMessage⟩]
  ([⟨function.FunctionDef, statementTimeoutDefault, lockTimeoutDefault, hazards⟩], none)

/-- `functionSQLVertexGenerator.Delete`: `DROP FUNCTION <fq_name>`, with the
same hazard rule as `Add`. -/
def functionSQLVertexGenerator.Delete (function : Function) :
    List Statement × Option String :=
  let hazards : List MigrationHazard :=
    if canFunctionDependenciesBeTracked function then []
    else [⟨MigrationHazardType.HasUntrackableDependencies, functionDeleteHazardMessage⟩]
  ([⟨"DROP FUNCTION " ++ function.GetFQEscapedName, statementTimeoutDefault,
      lockTimeoutDefault, hazards⟩], none)

/-- `functionSQLVertexGenerator.Alter`: empty when old equals new, else
re-emit `Add` of the new function. -/
def functionSQLVertexGenerator.Alter (diff : functionDiff) :
    List Statement × Option String :=
  if diff.old = diff.new then ([], none)
  else functionSQLVertexGenerator.Add diff.new

def buildFunctionVertexId (name : SchemaQualifiedName) (d : diffType) : sqlVertexId :=
  buildSchemaObjVertexId "function" name.GetFQEscapedName d

def functionSQLVertexGenerator.GetSQLVertexId (function : Function) (d : diffType) :
    sqlVertexId :=
  buildFunctionVertexId function.name d

/-- `functionSQLVertexGenerator.GetAddAlterDependencies`, mirroring the Go
loop order: function deps, table deps, referenced-column deps against the
tracked table diffs, then (when an old function exists) delete-ordering edges
for the old function dependencies. -/
def functionSQLVertexGenerator.GetAddAlterDependencies
    (f : functionSQLVertexGenerator) (newFunction oldFunction : Function) :
    List dependency × Option String :=
  let selfId := functionSQLVertexGenerator.GetSQLVertexId newFunction diffType.addAlter
  let funcDeps := newFunction.DependsOnFunctions.map fun depFunction =>
    (mustRun selfId).after (buildFunctionVertexId depFunction diffType.addAlter)
  let tableDeps := newFunction.DependsOnTables.map fun depTable =>
    (mustRun selfId).after
      (buildSchemaObjVertexId "table" depTable.GetFQEscapedName diffType.addAlter)
  let colRefDeps := newFunction.ReferencedColumns.flatMap fun colRef =>
    f.tableDiffs.flatMap fun td =>
      if td.old.GetName = colRef.TableName ∨ td.new.GetName = colRef.TableName then
        let isNewColumn : Bool :=
          if td.old = Table.zero then false
          else ! td.old.Columns.any fun oldCol => oldCol.Name == colRef.ColumnName
        if isNewColumn then
          [(mustRun selfId).after
            (buildSchemaObjVertexId "table" td.new.GetFQEscapedName diffType.addAlter)]
        else []
      else []
  let oldDeps :=
    if oldFunction = Function.zero then []
    else oldFunction.DependsOnFunctions.map fun depFunction =>
      (mustRun selfId).before (buildFunctionVertexId depFunction diffType.delete)
  (funcDeps ++ tableDeps ++ colRefDeps ++ oldDeps, none)

/-- `functionSQLVertexGenerator.GetDeleteDependencies`. -/
def functionSQLVertexGenerator.GetDeleteDependencies (function : Function) :
    List dependency × Option String :=
  (function.DependsOnFunctions.map fun depFunction =>
    (mustRun (functionSQLVertexGenerator.GetSQLVertexId function diffType.delete)).before
      (buildFunctionVertexId depFunction diffType.delete), none)

/-- `viewSQLVertexGenerator.Add`: `CREATE VIEW <fq_name> AS <definition>`. -/
def viewSQLVertexGenerator.Add (view : View) : List Statement × Option String :=
  ([⟨"CREATE VIEW " ++ view.GetFQEscapedName ++ " AS " ++ view.Definition,
      statementTimeoutDefault, lockTimeoutDefault, []⟩], none)

/-- `viewSQLVertexGenerator.Delete`: `DROP VIEW <fq_name>` with the
`DeletesData` hazard. -/
def viewSQLVertexGenerator.Delete (view : View) : List Statement × Option String :=
  ([⟨"DROP VIEW " ++ view.GetFQEscapedName, statementTimeoutDefault,
      lockTimeoutDefault,
      [⟨MigrationHazardType.DeletesData, "Deletes the view"⟩]⟩], none)

/-- `viewSQLVertexGenerator.Alter`: empty when old equals new; else the drop
statements of the old view followed by the create statements of the new one,
propagating (never-occurring) errors as the Go code wraps them. -/
def viewSQLVertexGenerator.Alter (diff : viewDiff) : List Statement × Option String :=
  if diff.old = diff.new then ([], none)
  else
    match viewSQLVertexGenerator.Delete diff.old with
    | (_, some err) => ([], some ("generating drop view statements: " ++ err))
    | (dropStmts, none) =>
      match viewSQLVertexGenerator.Add diff.new with
      | (_, some err) => ([], some ("generating create view statements: " ++ err))
      | (createStmts, none) => (dropStmts ++ createStmts, none)

def buildViewVertexId (name : SchemaQualifiedName) (d : diffType) : sqlVertexId :=
  buildSchemaObjVertexId "view" name.GetFQEscapedName d

def viewSQLVertexGenerator.GetSQLVertexId (view : View) (d : diffType) : sqlVertexId :=
  buildViewVertexId view.name d

/-- `contains` from the view generator's file: membership by fully-qualified
escaped name. -/
def contains (names : List SchemaQualifiedName) (name : SchemaQualifiedName) : Bool :=
  names.any fun n => n.GetFQEscapedName == name.GetFQEscapedName

/-- `viewSQLVertexGenerator.GetAddAlterDependencies`, mirroring the Go loop
order: new-side table deps, new-side view deps (self-references skipped),
then — only when an old view exists — teardown-ordering edges for old
dependencies dropped from the new dependency lists. -/
def viewSQLVertexGenerator.GetAddAlterDependencies (newView oldView : View) :
    List dependency × Option String :=
  let selfId := viewSQLVertexGenerator.GetSQLVertexId newView diffType.addAlter
  let tableDeps := newView.DependsOnTables.map fun depTable =>
    (mustRun selfId).after
      (buildSchemaObjVertexId "table" depTable.GetFQEscapedName diffType.addAlter)
  let viewDeps := newView.DependsOnViews.flatMap fun depView =>
    if depView.GetFQEscapedName ≠ newView.GetFQEscapedName then
      [(mustRun selfId).after (buildViewVertexId depView diffType.addAlter)]
    else []
  let oldDeps :=
    if oldView = View.zero then []
    else
      (oldView.DependsOnTables.flatMap fun depTable =>
        if contains newView.DependsOnTables depTable then []
        else
          [(mustRun selfId).before
            (buildSchemaObjVertexId "table" depTable.GetFQEscapedName diffType.delete)])
      ++ (oldView.DependsOnViews.flatMap fun depView =>
        if contains newView.DependsOnViews depView then []
        else [(mustRun selfId).before (buildViewVertexId depView diffType.delete)])
  (tableDeps ++ viewDeps ++ oldDeps, none)

/-- `viewSQLVertexGenerator.GetDeleteDependencies`: the view's teardown runs
before the teardown of everything it depends on (self-references skipped). -/
def viewSQLVertexGenerator.GetDeleteDependencies (view : View) :
    List dependency × Option String :=
  let selfId := viewSQLVertexGenerator.GetSQLVertexId view diffType.delete
  ((view.DependsOnTables.map fun depTable =>
      (mustRun selfId).before
        (buildSchemaObjVertexId "table" depTable.GetFQEscapedName diffType.delete))
    ++ (view.DependsOnViews.flatMap fun depView =>
      if depView.GetFQEscapedName ≠ view.GetFQEscapedName then
        [(mustRun selfId).before (buildViewVertexId depView diffType.delete)]
      else []), none)

/-- One character of `strings.ReplaceAll(tag, "'", "''")`: a single quote
becomes two, anything else is kept. -/
def escapeTagQuote (c : Char) : List Char := if c = '\'' then ['\'', '\''] else [c]

/-- `strings.ReplaceAll(tag, "'", "''")` as the event-trigger generator calls
it: with a one-character pattern, ReplaceAll is exactly this character-wise
expansion. -/
def escapeTagQuotes (s : String) : String := ⟨s.data.flatMap escapeTagQuote⟩

/-- `eventTriggerSQLVertexGenerator.Add`
(`pkg/diff/event_trigger_sql_vertex_generator.go`): `CREATE EVENT TRIGGER`
with an optional `WHEN TAG IN` clause (tags single-quoted, embedded quotes
doubled) and the `EXECUTE FUNCTION` clause. -/
def eventTriggerSQLVertexGenerator.Add (e : EventTrigger) :
    List Statement × Option String :=
  let createStmt := "CREATE EVENT TRIGGER " ++ EscapeIdentifier e.Name ++ " ON " ++ e.Event
  let createStmt :=
    if 0 < e.Tags.length then
      let quotedTags := e.Tags.map fun tag => "'" ++ escapeTagQuotes tag ++ "'"
      createStmt ++ "\n    WHEN TAG IN (" ++ String.intercalate ", " quotedTags ++ ")"
    else createStmt
  let createStmt :=
    createStmt ++ "\n    EXECUTE FUNCTION " ++ e.Function.GetFQEscapedName ++ "();"
  ([⟨createStmt, statementTimeoutDefault, lockTimeoutDefault, []⟩], none)

/-- `eventTriggerSQLVertexGenerator.Delete`: `DROP EVENT TRIGGER IF EXISTS`. -/
def eventTriggerSQLVertexGenerator.Delete (e : EventTrigger) :
    List Statement × Option String :=
  ([⟨"DROP EVENT TRIGGER IF EXISTS " ++ EscapeIdentifier e.Name,
      statementTimeoutDefault, lockTimeoutDefault, []⟩], none)

/-- `eventTriggerSQLVertexGenerator.Alter`: drop then recreate (event
triggers cannot be altered in place). -/
def eventTriggerSQLVertexGenerator.Alter (diff : eventTriggerDiff) :
    List Statement × Option String :=
  if diff.old = diff.new then ([], none)
  else
    match eventTriggerSQLVertexGenerator.Delete diff.old with
    | (_, some err) => ([], some err)
    | (dropStmts, none) =>
      match eventTriggerSQLVertexGenerator.Add diff.new with
      | (_, some err) => ([], some err)
      | (createStmts, none) => (dropStmts ++ createStmts, none)

def buildEventTriggerVertexId (e : EventTrigger) (d : diffType) : sqlVertexId :=
  buildSchemaObjVertexId "event_trigger" e.Name d

def eventTriggerSQLVertexGenerator.GetSQLVertexId (e : EventTrigger) (d : diffType) :
    sqlVertexId :=
  buildEventTriggerVertexId e d

/-- `eventTriggerSQLVertexGenerator.GetAddAlterDependencies`: the trigger
runs after its function's AddAlter. -/
def eventTriggerSQLVertexGenerator.GetAddAlterDependencies (newET oldET : EventTrigger) :
    List dependency × Option String :=
  ([(mustRun (eventTriggerSQLVertexGenerator.GetSQLVertexId newET diffType.addAlter)).after
      (buildFunctionVertexId newET.Function diffType.addAlter)], none)

/-- `eventTriggerSQLVertexGenerator.GetDeleteDependencies`: the trigger's
teardown runs before its function's teardown. -/
def eventTriggerSQLVertexGenerator.GetDeleteDependencies (e : EventTrigger) :
    List dependency × Option String :=
  ([(mustRun (eventTriggerSQLVertexGenerator.GetSQLVertexId e diffType.delete)).before
      (buildFunctionVertexId e.Function diffType.delete)], none)

/-! Concrete objects used to evaluate the generators at specific inputs
(they mirror the repository's test fixtures). -/

def tOldEx : Table := ⟨⟨"public", "t"⟩, [⟨"a", "int", false, ""⟩], []⟩

def tNewEx : Table :=
  ⟨⟨"public", "t"⟩, [⟨"a", "int", false, ""⟩, ⟨"b", "int", false, ""⟩], []⟩

def tdEx : tableDiff := ⟨tOldEx, tNewEx⟩

def fnRefEx : Function :=
  ⟨⟨"public", "f"⟩, "CREATE OR REPLACE FUNCTION \"public\".\"f\"() RETURNS int LANGUAGE sql AS SELECT b FROM t", "sql", [], [], [⟨"t", "b"⟩]⟩

def genEx : functionSQLVertexGenerator := ⟨[], [tdEx]⟩

def t2NewEx : Table := ⟨⟨"public", "t2"⟩, [⟨"c", "int", false, ""⟩], []⟩

def fnSqlEx : Function :=
  ⟨⟨"public", "g"⟩, "CREATE OR REPLACE FUNCTION \"public\".\"g\"() RETURNS int LANGUAGE sql AS SELECT 1", "sql", [], [], []⟩

def fnPlEx : Function :=
  { fnSqlEx with
    FunctionDef := "CREATE OR REPLACE FUNCTION \"public\".\"g\"() RETURNS int LANGUAGE sql AS SELECT 2" }

def vOldEx : View := ⟨⟨"public", "v"⟩, "SELECT * FROM t1", [⟨"public", "t1"⟩], []⟩

def vNewEx : View := ⟨⟨"public", "v"⟩, "SELECT 1", [], []⟩

def vSelfEx : View := ⟨⟨"public", "w"⟩, "SELECT * FROM w", [], [⟨"public", "w"⟩]⟩

def etTagsEx : EventTrigger :=
  ⟨"log_ddl", "ddl_command_end", ⟨"public", "\"log_ddl_command\""⟩, "O",
    ["CREATE TABLE", "ALTER TABLE"]⟩

def etNoTagsEx : EventTrigger :=
  ⟨"log_ddl2", "sql_drop", ⟨"public", "\"monitor_drops\""⟩, "O", []⟩

/-- C5: for every event trigger, `GetAddAlterDependencies` returns exactly the
one edge placing the trigger's AddAlter strictly after its function's
AddAlter, and `GetDeleteDependencies` returns exactly the one edge placing
the trigger's Delete strictly before its function's Delete. -/
theorem C5_event_trigger_dependencies (newET oldET e : EventTrigger) :
    eventTriggerSQLVertexGenerator.GetAddAlterDependencies newET oldET =
      ([⟨buildFunctionVertexId newET.Function diffType.addAlter,
          buildSchemaObjVertexId "event_trigger" newET.Name diffType.addAlter⟩], none)
    ∧ eventTriggerSQLVertexGenerator.GetDeleteDependencies e =
      ([⟨buildSchemaObjVertexId "event_trigger" e.Name diffType.delete,
          buildFunctionVertexId e.Function diffType.delete⟩], none) :=
  ⟨rfl, rfl⟩

/-- C7: function `Add` and `Delete` each return exactly one statement; its
DDL is the stored definition text verbatim (Add) or `DROP FUNCTION` plus the
fully-qualified escaped name (Delete); and the statement carries the
`HasUntrackableDependencies` hazard exactly when the language is not
`sql`. -/
theorem C7_function_add_delete_shape (F : Function) :
    (functionSQLVertexGenerator.Add F).1.map Statement.DDL = [F.FunctionDef]
    ∧ (functionSQLVertexGenerator.Delete F).1.map Statement.DDL
        = ["DROP FUNCTION " ++ F.GetFQEscapedName]
    ∧ (functionSQLVertexGenerator.Add F).1.map
          (fun s => s.Hazards.map MigrationHazard.hazardType)
        = [if F.Language = "sql" then []
           else [MigrationHazardType.HasUntrackableDependencies]]
    ∧ (functionSQLVertexGenerator.Delete F).1.map
          (fun s => s.Hazards.map MigrationHazard.hazardType)
        = [if F.Language = "sql" then []
           else [MigrationHazardType.HasUntrackableDependencies]] := by
  by_cases h : F.Language = "sql" <;>
    simp [functionSQLVertexGenerator.Add, functionSQLVertexGenerator.Delete,
      canFunctionDependenciesBeTracked, h]

/-- C9: every operation of the view, function and event-trigger generators
returns a nil error on every input, so their `GeneratorFailure` branch is
unreachable. -/
theorem C9_no_generator_errors :
    (∀ v, (viewSQLVertexGenerator.Add v).2 = none)
    ∧ (∀ v, (viewSQLVertexGenerator.Delete v).2 = none)
    ∧ (∀ d, (viewSQLVertexGenerator.Alter d).2 = none)
    ∧ (∀ nv ov, (viewSQLVertexGenerator.GetAddAlterDependencies nv ov).2 = none)
    ∧ (∀ v, (viewSQLVertexGenerator.GetDeleteDependencies v).2 = none)
    ∧ (∀ f, (functionSQLVertexGenerator.Add f).2 = none)
    ∧ (∀ f, (functionSQLVertexGenerator.Delete f).2 = none)
    ∧ (∀ d, (functionSQLVertexGenerator.Alter d).2 = none)
    ∧ (∀ g nf of, (functionSQLVertexGenerator.GetAddAlterDependencies g nf of).2 = none)
    ∧ (∀ f, (functionSQLVertexGenerator.GetDeleteDependencies f).2 = none)
    ∧ (∀ e, (eventTriggerSQLVertexGenerator.Add e).2 = none)
    ∧ (∀ e, (eventTriggerSQLVertexGenerator.Delete e).2 = none)
    ∧ (∀ d, (eventTriggerSQLVertexGenerator.Alter d).2 = none)
    ∧ (∀ ne oe, (eventTriggerSQLVertexGenerator.GetAddAlterDependencies ne oe).2 = none)
    ∧ (∀ e, (eventTriggerSQLVertexGenerator.GetDeleteDependencies e).2 = none) := by
  refine ⟨fun _ => rfl, fun _ => rfl, fun d => ?_, fun _ _ => rfl, fun _ => rfl,
    fun _ => rfl, fun _ => rfl, fun d => ?_, fun _ _ _ => rfl, fun _ => rfl,
    fun e => ?_, fun _ => rfl, fun d => ?_, fun _ _ => rfl, fun _ => rfl⟩
  · by_cases h : d.old = d.new <;> simp [viewSQLVertexGenerator.Alter, h,
      viewSQLVertexGenerator.Delete, viewSQLVertexGenerator.Add]
  · by_cases h : d.old = d.new <;> simp [functionSQLVertexGenerator.Alter, h,
      functionSQLVertexGenerator.Add]
  · by_cases h : 0 < e.Tags.length <;> simp [eventTriggerSQLVertexGenerator.Add, h]
  · by_cases h : d.old = d.new <;> simp [eventTriggerSQLVertexGenerator.Alter, h,
      eventTriggerSQLVertexGenerator.Delete, eventTriggerSQLVertexGenerator.Add]

/-- C1: altering a function whose old and new sides are equal yields no
statements; altering one whose sides differ yields exactly the output of
`Add` on the new function — a single statement whose DDL is the stored
definition text — so no `DROP FUNCTION` statement is ever part of an Alter's
output. -/
theorem C1_function_alter_shape (d : functionDiff) :
    (d.old = d.new → functionSQLVertexGenerator.Alter d = ([], none))
    ∧ (d.old ≠ d.new →
        functionSQLVertexGenerator.Alter d = functionSQLVertexGenerator.Add d.new
        ∧ (functionSQLVertexGenerator.Alter d).1.length = 1
        ∧ ∀ s ∈ (functionSQLVertexGenerator.Alter d).1, s.DDL = d.new.FunctionDef) := by
  constructor
  · intro h
    simp [functionSQLVertexGenerator.Alter, h]
  · intro h
    have halter : functionSQLVertexGenerator.Alter d = functionSQLVertexGenerator.Add d.new := by
      simp [functionSQLVertexGenerator.Alter, h]
    refine ⟨halter, ?_, ?_⟩
    · rw [halter]; rfl
    · intro s hs
      rw [halter] at hs
      simp [functionSQLVertexGenerator.Add] at hs
      simp [hs]

/-- C1 witness: evaluated at a diff with differing sides and at one with
equal sides. -/
theorem C1_function_alter_shape_witness :
    functionSQLVertexGenerator.Alter ⟨fnSqlEx, fnPlEx⟩
        = functionSQLVertexGenerator.Add fnPlEx
    ∧ functionSQLVertexGenerator.Alter ⟨fnSqlEx, fnSqlEx⟩ = ([], none) :=
  ⟨((C1_function_alter_shape ⟨fnSqlEx, fnPlEx⟩).2 (by decide)).1,
    (C1_function_alter_shape ⟨fnSqlEx, fnSqlEx⟩).1 rfl⟩

/-- C2: altering a view whose sides are equal yields no statements; altering
one whose sides differ yields exactly a `DROP VIEW` of the old view's
fully-qualified escaped name carrying the `DeletesData` hazard followed by a
`CREATE VIEW` of the new view — so every view alter produces exactly one
drop statement carrying `DeletesData` — and every view `Delete` output
carries `DeletesData`. -/
theorem C2_view_alter_shape (d : viewDiff) :
    (d.old = d.new → viewSQLVertexGenerator.Alter d = ([], none))
    ∧ (d.old ≠ d.new →
        viewSQLVertexGenerator.Alter d =
          ([⟨"DROP VIEW " ++ d.old.GetFQEscapedName, statementTimeoutDefault,
              lockTimeoutDefault,
              [⟨MigrationHazardType.DeletesData, "Deletes the view"⟩]⟩,
            ⟨"CREATE VIEW " ++ d.new.GetFQEscapedName ++ " AS " ++ d.new.Definition,
              statementTimeoutDefault, lockTimeoutDefault, []⟩], none))
    ∧ ∀ v : View, ∀ s ∈ (viewSQLVertexGenerator.Delete v).1,
        ∃ h ∈ s.Hazards, h.hazardType = MigrationHazardType.DeletesData := by
  refine ⟨fun h => by simp [viewSQLVertexGenerator.Alter, h], fun h => ?_, ?_⟩
  · simp [viewSQLVertexGenerator.Alter, h, viewSQLVertexGenerator.Delete,
      viewSQLVertexGenerator.Add]
  · intro v s hs
    simp [viewSQLVertexGenerator.Delete] at hs
    simp [hs]

/-- C2 witness: evaluated at a view diff with differing sides and at one with
equal sides. -/
theorem C2_view_alter_shape_witness :
    viewSQLVertexGenerator.Alter ⟨vOldEx, vNewEx⟩ =
      ([⟨"DROP VIEW " ++ vOldEx.GetFQEscapedName, statementTimeoutDefault,
          lockTimeoutDefault,
          [⟨MigrationHazardType.DeletesData, "Deletes the view"⟩]⟩,
        ⟨"CREATE VIEW " ++ vNewEx.GetFQEscapedName ++ " AS " ++ vNewEx.Definition,
          statementTimeoutDefault, lockTimeoutDefault, []⟩], none)
    ∧ viewSQLVertexGenerator.Alter ⟨vOldEx, vOldEx⟩ = ([], none) :=
  ⟨((C2_view_alter_shape ⟨vOldEx, vNewEx⟩).2.1 (by decide)),
    (C2_view_alter_shape ⟨vOldEx, vOldEx⟩).1 rfl⟩

/-- C6: `Add` of an event trigger returns exactly one `CREATE EVENT TRIGGER`
statement with the escaped name and event, a newline-indented `WHEN TAG IN`
clause (tags comma-separated, single-quoted, embedded quotes doubled) only
when the tag list is non-empty, and a newline-indented `EXECUTE FUNCTION`
clause ending in "();"; `Delete` returns exactly one
`DROP EVENT TRIGGER IF EXISTS` statement with the escaped name. -/
theorem C6_event_trigger_ddl (e : EventTrigger) :
    (e.Tags = [] →
      eventTriggerSQLVertexGenerator.Add e =
        ([⟨"CREATE EVENT TRIGGER " ++ EscapeIdentifier e.Name ++ " ON " ++ e.Event
            ++ "\n    EXECUTE FUNCTION " ++ e.Function.GetFQEscapedName ++ "();",
            statementTimeoutDefault, lockTimeoutDefault, []⟩], none))
    ∧ (e.Tags ≠ [] →
      eventTriggerSQLVertexGenerator.Add e =
        ([⟨"CREATE EVENT TRIGGER " ++ EscapeIdentifier e.Name ++ " ON " ++ e.Event
            ++ "\n    WHEN TAG IN ("
            ++ String.intercalate ", "
                (e.Tags.map fun tag => "'" ++ escapeTagQuotes tag ++ "'")
            ++ ")"
            ++ "\n    EXECUTE FUNCTION " ++ e.Function.GetFQEscapedName ++ "();",
            statementTimeoutDefault, lockTimeoutDefault, []⟩], none))
    ∧ eventTriggerSQLVertexGenerator.Delete e =
        ([⟨"DROP EVENT TRIGGER IF EXISTS " ++ EscapeIdentifier e.Name,
            statementTimeoutDefault, lockTimeoutDefault, []⟩], none) := by
  refine ⟨fun h => ?_, fun h => ?_, rfl⟩
  · simp [eventTriggerSQLVertexGenerator.Add, h]
  · have hlen : 0 < e.Tags.length := List.length_pos.mpr h
    simp [eventTriggerSQLVertexGenerator.Add, hlen]

/-- C6 witness: evaluated at the repository test's `log_ddl` trigger (tags
present) and at a tagless trigger; the emitted DDL matches the test's
expected text character for character. -/
theorem C6_event_trigger_ddl_witness :
    eventTriggerSQLVertexGenerator.Add etTagsEx =
      ([⟨"CREATE EVENT TRIGGER \"log_ddl\" ON ddl_command_end\n    WHEN TAG IN ('CREATE TABLE', 'ALTER TABLE')\n    EXECUTE FUNCTION \"public\".\"log_ddl_command\"();",
          statementTimeoutDefault, lockTimeoutDefault, []⟩], none)
    ∧ eventTriggerSQLVertexGenerator.Add etNoTagsEx =
      ([⟨"CREATE EVENT TRIGGER \"log_ddl2\" ON sql_drop\n    EXECUTE FUNCTION \"public\".\"monitor_drops\"();",
          statementTimeoutDefault, lockTimeoutDefault, []⟩], none)
    ∧ eventTriggerSQLVertexGenerator.Delete etTagsEx =
      ([⟨"DROP EVENT TRIGGER IF EXISTS \"log_ddl\"", statementTimeoutDefault,
          lockTimeoutDefault, []⟩], none) := by
  refine ⟨?_, ?_, ?_⟩
  · rw [(C6_event_trigger_ddl etTagsEx).2.1 (by decide)]
    rfl
  · rw [(C6_event_trigger_ddl etNoTagsEx).1 rfl]
    rfl
  · rw [(C6_event_trigger_ddl etTagsEx).2.2]
    rfl

/-- C3: if some tracked table diff alters table T (old side non-zero, both
sides named as a referenced column's table) and the referenced column is
absent from the old side's column list, then the function generator emits
the edge AddAlter(T) → AddAlter(F). -/
theorem C3_function_new_column_edge
    (g : functionSQLVertexGenerator) (newF oldF : Function)
    (colRef : TableColumnRef) (td : tableDiff)
    (hcol : colRef ∈ newF.ReferencedColumns)
    (htd : td ∈ g.tableDiffs)
    (hzero : td.old ≠ Table.zero)
    (holdName : td.old.GetName = colRef.TableName)
    (hnewName : td.new.GetName = colRef.TableName)
    (habsent : ∀ c ∈ td.old.Columns, c.Name ≠ colRef.ColumnName) :
    (⟨buildSchemaObjVertexId "table" td.new.GetFQEscapedName diffType.addAlter,
      functionSQLVertexGenerator.GetSQLVertexId newF diffType.addAlter⟩ : dependency)
      ∈ (g.GetAddAlterDependencies newF oldF).1 := by
  have hany : (td.old.Columns.any fun oldCol => oldCol.Name == colRef.ColumnName)
      = false := by
    rw [List.any_eq_false]
    intro c hc
    simpa using habsent c hc
  have hinner :
      (⟨buildSchemaObjVertexId "table" td.new.GetFQEscapedName diffType.addAlter,
        functionSQLVertexGenerator.GetSQLVertexId newF diffType.addAlter⟩ : dependency)
        ∈ newF.ReferencedColumns.flatMap fun colRef =>
            g.tableDiffs.flatMap fun td =>
              if td.old.GetName = colRef.TableName ∨ td.new.GetName = colRef.TableName then
                let isNewColumn : Bool :=
                  if td.old = Table.zero then false
                  else ! td.old.Columns.any fun oldCol => oldCol.Name == colRef.ColumnName
                if isNewColumn then
                  [(mustRun (functionSQLVertexGenerator.GetSQLVertexId newF
                      diffType.addAlter)).after
                    (buildSchemaObjVertexId "table" td.new.GetFQEscapedName
                      diffType.addAlter)]
                else []
              else [] := by
    refine List.mem_flatMap.2 ⟨colRef, hcol, List.mem_flatMap.2 ⟨td, htd, ?_⟩⟩
    rw [if_pos (Or.inl holdName)]
    simp [hzero, hany, mustRun, mustRunBuilder.after]
  simp only [functionSQLVertexGenerator.GetAddAlterDependencies, List.mem_append]
  exact Or.inl (Or.inr hinner)

/-- C3 witness: old table `t(a int)` becomes `t(a int, b int)` and the new
function `f` has `referenced_columns = [(t, b)]`: AddAlter(f) gains an
inbound edge from AddAlter(t). -/
theorem C3_function_new_column_edge_witness :
    (⟨buildSchemaObjVertexId "table" tNewEx.GetFQEscapedName diffType.addAlter,
      functionSQLVertexGenerator.GetSQLVertexId fnRefEx diffType.addAlter⟩ : dependency)
      ∈ (genEx.GetAddAlterDependencies fnRefEx Function.zero).1 :=
  C3_function_new_column_edge genEx fnRefEx Function.zero ⟨"t", "b"⟩ tdEx
    (by decide) (by decide) (by decide) (by decide) (by decide) (by decide)

/-- C4: when a view is altered (old side non-zero), every old table or view
dependency missing from the new side's corresponding dependency list yields
the edge AddAlter(V) → Delete(D); when the old side is the zero view (a pure
add), every emitted edge targets AddAlter(V), so no AddAlter(V) → Delete(D)
edge exists. -/
theorem C4_view_dropped_dependency_edges (newV oldV : View) :
    (oldV ≠ View.zero →
      (∀ depTable ∈ oldV.DependsOnTables,
        contains newV.DependsOnTables depTable = false →
          (⟨viewSQLVertexGenerator.GetSQLVertexId newV diffType.addAlter,
            buildSchemaObjVertexId "table" depTable.GetFQEscapedName diffType.delete⟩ :
              dependency)
            ∈ (viewSQLVertexGenerator.GetAddAlterDependencies newV oldV).1)
      ∧ (∀ depView ∈ oldV.DependsOnViews,
        contains newV.DependsOnViews depView = false →
          (⟨viewSQLVertexGenerator.GetSQLVertexId newV diffType.addAlter,
            buildViewVertexId depView diffType.delete⟩ : dependency)
            ∈ (viewSQLVertexGenerator.GetAddAlterDependencies newV oldV).1))
    ∧ (oldV = View.zero →
        ∀ e ∈ (viewSQLVertexGenerator.GetAddAlterDependencies newV oldV).1,
          e.dst = viewSQLVertexGenerator.GetSQLVertexId newV diffType.addAlter) := by
  constructor
  · intro hzero
    constructor
    · intro depTable hmem hnc
      simp only [viewSQLVertexGenerator.GetAddAlterDependencies, List.mem_append]
      refine Or.inr ?_
      rw [if_neg hzero]
      refine List.mem_append.2 (Or.inl ?_)
      refine List.mem_flatMap.2 ⟨depTable, hmem, ?_⟩
      simp [hnc, mustRun, mustRunBuilder.before]
    · intro depView hmem hnc
      simp only [viewSQLVertexGenerator.GetAddAlterDependencies, List.mem_append]
      refine Or.inr ?_
      rw [if_neg hzero]
      refine List.mem_append.2 (Or.inr ?_)
      refine List.mem_flatMap.2 ⟨depView, hmem, ?_⟩
      simp [hnc, mustRun, mustRunBuilder.before]
  · intro hzero e he
    simp only [viewSQLVertexGenerator.GetAddAlterDependencies, if_pos hzero,
      List.append_nil, List.mem_append, List.mem_map, List.mem_flatMap] at he
    rcases he with ⟨a, _, rfl⟩ | ⟨a, _, ha⟩
    · rfl
    · by_cases hne : a.GetFQEscapedName ≠ newV.GetFQEscapedName
      · rw [if_pos hne] at ha
        simp at ha
        rw [ha]
        rfl
      · rw [if_neg hne] at ha
        simp at ha

/-- C4 witness: the altered view `v` drops its old dependency on table `t1`;
the edge AddAlter(v) → Delete(t1) is emitted. -/
theorem C4_view_dropped_dependency_edges_witness :
    (⟨viewSQLVertexGenerator.GetSQLVertexId vNewEx diffType.addAlter,
      buildSchemaObjVertexId "table"
        (SchemaQualifiedName.GetFQEscapedName ⟨"public", "t1"⟩) diffType.delete⟩ :
        dependency)
      ∈ (viewSQLVertexGenerator.GetAddAlterDependencies vNewEx vOldEx).1 :=
  ((C4_view_dropped_dependency_edges vNewEx vOldEx).1 (by decide)).1
    ⟨"public", "t1"⟩ (by decide) (by decide)

/-- C8: the view generator never emits a self-edge: no edge of
`GetAddAlterDependencies` is AddAlter(V) → AddAlter(V) and no edge of
`GetDeleteDependencies` is Delete(V) → Delete(V), whatever the dependency
lists contain (self-referencing entries are skipped). -/
theorem C8_view_no_self_edges (newV oldV v : View) :
    (∀ e ∈ (viewSQLVertexGenerator.GetAddAlterDependencies newV oldV).1,
      ¬(e.src = buildViewVertexId newV.name diffType.addAlter
        ∧ e.dst = buildViewVertexId newV.name diffType.addAlter))
    ∧ (∀ e ∈ (viewSQLVertexGenerator.GetDeleteDependencies v).1,
      ¬(e.src = buildViewVertexId v.name diffType.delete
        ∧ e.dst = buildViewVertexId v.name diffType.delete)) := by
  constructor
  · intro e he
    simp only [viewSQLVertexGenerator.GetAddAlterDependencies, List.mem_append,
      List.mem_map, List.mem_flatMap] at he
    rcases he with (⟨a, _, rfl⟩ | ⟨a, _, ha⟩) | hold
    · rintro ⟨hsrc, -⟩
      simp [mustRun, mustRunBuilder.after, buildSchemaObjVertexId,
        buildViewVertexId] at hsrc
    · by_cases hne : a.GetFQEscapedName ≠ newV.GetFQEscapedName
      · rw [if_pos hne] at ha
        simp only [List.mem_singleton] at ha
        subst ha
        rintro ⟨hsrc, -⟩
        apply hne
        simpa [mustRun, mustRunBuilder.after, buildViewVertexId,
          buildSchemaObjVertexId, View.GetFQEscapedName] using hsrc
      · rw [if_neg hne] at ha
        simp at ha
    · by_cases hz : oldV = View.zero
      · rw [if_pos hz] at hold
        simp at hold
      · rw [if_neg hz] at hold
        rcases List.mem_append.1 hold with hta | hva
        · rcases List.mem_flatMap.1 hta with ⟨a, -, ha⟩
          by_cases hc : contains newV.DependsOnTables a = true
          · rw [if_pos hc] at ha
            simp at ha
          · rw [if_neg hc] at ha
            simp only [List.mem_singleton] at ha
            subst ha
            rintro ⟨-, hdst⟩
            simp [mustRun, mustRunBuilder.before, buildSchemaObjVertexId,
              buildViewVertexId] at hdst
        · rcases List.mem_flatMap.1 hva with ⟨a, -, ha⟩
          by_cases hc : contains newV.DependsOnViews a = true
          · rw [if_pos hc] at ha
            simp at ha
          · rw [if_neg hc] at ha
            simp only [List.mem_singleton] at ha
            subst ha
            rintro ⟨-, hdst⟩
            simp [mustRun, mustRunBuilder.before, buildSchemaObjVertexId,
              buildViewVertexId] at hdst
  · intro e he
    simp only [viewSQLVertexGenerator.GetDeleteDependencies, List.mem_append,
      List.mem_map, List.mem_flatMap] at he
    rcases he with ⟨a, _, rfl⟩ | ⟨a, _, ha⟩
    · rintro ⟨-, hdst⟩
      simp [mustRun, mustRunBuilder.before, buildSchemaObjVertexId,
        buildViewVertexId] at hdst
    · by_cases hne : a.GetFQEscapedName ≠ v.GetFQEscapedName
      · rw [if_pos hne] at ha
        simp only [List.mem_singleton] at ha
        subst ha
        rintro ⟨-, hdst⟩
        apply hne
        simpa [mustRun, mustRunBuilder.before, buildViewVertexId,
          buildSchemaObjVertexId, View.GetFQEscapedName] using hdst
      · rw [if_neg hne] at ha
        simp at ha

/-- C8 witness: a view whose dependency lists contain its own name produces
neither the AddAlter self-edge nor the Delete self-edge. -/
theorem C8_view_no_self_edges_witness :
    (⟨buildViewVertexId vSelfEx.name diffType.addAlter,
      buildViewVertexId vSelfEx.name diffType.addAlter⟩ : dependency)
      ∉ (viewSQLVertexGenerator.GetAddAlterDependencies vSelfEx View.zero).1
    ∧ (⟨buildViewVertexId vSelfEx.name diffType.delete,
        buildViewVertexId vSelfEx.name diffType.delete⟩ : dependency)
      ∉ (viewSQLVertexGenerator.GetDeleteDependencies vSelfEx).1 :=
  ⟨fun h => (C8_view_no_self_edges vSelfEx View.zero vSelfEx).1 _ h ⟨rfl, rfl⟩,
    fun h => (C8_view_no_self_edges vSelfEx View.zero vSelfEx).2 _ h ⟨rfl, rfl⟩⟩

/-- C10: a tracked table diff whose old side is the zero `Table` (the table
is newly created in this migration) contributes no referenced-columns edge
for any reference: removing that one diff from the tracked list — whatever
other diffs the same migration tracks — leaves `GetAddAlterDependencies`
unchanged, so ordering against brand-new tables comes only from the
function's `DependsOnTables` list. -/
theorem C10_new_table_no_colref_edge
    (m : List (String × Function)) (pre post : List tableDiff)
    (newF oldF : Function) (td : tableDiff)
    (htd : td.old = Table.zero) :
    functionSQLVertexGenerator.GetAddAlterDependencies
        ⟨m, pre ++ td :: post⟩ newF oldF =
      functionSQLVertexGenerator.GetAddAlterDependencies ⟨m, pre ++ post⟩ newF oldF := by
  simp only [functionSQLVertexGenerator.GetAddAlterDependencies]
  have key : ∀ colRef : TableColumnRef,
      (if td.old.GetName = colRef.TableName ∨ td.new.GetName = colRef.TableName then
        let isNewColumn : Bool :=
          if td.old = Table.zero then false
          else ! td.old.Columns.any fun oldCol => oldCol.Name == colRef.ColumnName
        if isNewColumn then
          [(mustRun (functionSQLVertexGenerator.GetSQLVertexId newF
              diffType.addAlter)).after
            (buildSchemaObjVertexId "table" td.new.GetFQEscapedName diffType.addAlter)]
        else []
      else []) = [] := by
    intro colRef
    simp [htd]
  simp only [List.flatMap_append, List.flatMap_cons, key, List.nil_append]

/-- C10 witness: a mixed migration tracking both an alteration of existing
table `t` (which does contribute an edge for the function's `(t, b)`
reference) and a creation of table `t2` from the zero value: dropping the
creation diff leaves the dependencies unchanged. -/
theorem C10_new_table_no_colref_edge_witness :
    functionSQLVertexGenerator.GetAddAlterDependencies
        ⟨[], [tdEx, ⟨Table.zero, t2NewEx⟩]⟩ fnRefEx Function.zero =
      functionSQLVertexGenerator.GetAddAlterDependencies ⟨[], [tdEx]⟩ fnRefEx
        Function.zero :=
  C10_new_table_no_colref_edge [] [tdEx] [] fnRefEx Function.zero
    ⟨Table.zero, t2NewEx⟩ rfl

end PgSchemaDiff
